import Mathlib

/-!
Verification of the device-polling core of the `inkcheck` printer-supply
monitor against its natural-language specification.

The Rust sources are shallowly embedded: machine integers (`i64`, `u64`,
`u32`, `u8`) become `Int`/`Nat` with explicit two's-complement wrapping
where overflow matters, fallible functions return `Except AppError`,
network effects (SNMP gets, engine discovery) become explicit oracle
parameters, and the single-precision float arithmetic of the Brother
byte scanner is modelled exactly as round-to-nearest-even to a 24-bit
significand, computed on integer fractions.
-/

set_option maxRecDepth 4096

/-! ## Brother binary-blob scanner
(`src/driver/brother.rs`, `find_value_in_brother_bytes`)

The Rust expression `(value as f32 / 100.0) as i64` is modelled exactly:
IEEE-754 single precision in the normal range is round-to-nearest-even
with a 24-bit significand, computed here on exact integer fractions and
represented as a significand/power-of-two pair. -/

/-! ## Value Retrieval (`src/snmp/value.rs`)

`get_snmp_value` opens a session, converts the OID, then runs
`for _ in 1..=ctx.retries` around `timeout(ctx.timeout, session.get(..))`.
The network is an oracle `attempt : Nat → SnmpAttempt V` giving the
outcome of each `session.get`; the pair component counts issued queries. -/

/-- Application error kinds, the union of the variants of `AppError` /
`ErrorKind` used by the embedded functions (`src/error/mod.rs`), plus the
`configuration` and `protocolNegotiation` kinds that §7 of the spec assigns
to the V3 session factory. -/
inductive AppError where
  | oidConversion
  | typeMismatch (msg : String)
  | parse (msg : String)
  | snmpRequest (msg : String)
  | oidNotFound
  | invalidDirectory
  | directoryRead
  | invalidOidFormat
  | unsupportedVersion
  | unsupportedPrinter (model : String)
  | configuration (msg : String)
  | protocolNegotiation (msg : String)
  deriving DecidableEq, Repr

deriving instance DecidableEq for Except

/-! ## Device state model (`src/printer/supply/*.rs`, `src/printer/mod.rs`) -/

/-- `Toner` from `src/printer/supply/toner.rs` (fields are Rust `i64`). -/
structure Toner where
  level : Int
  max_level : Int
  level_percent : Option Int
  deriving DecidableEq, Repr

/-- `Drum` from `src/printer/supply/drum.rs`. -/
structure Drum where
  level : Int
  max_level : Int
  level_percent : Option Int
  deriving DecidableEq, Repr

/-- `Fuser` from `src/printer/supply/fuser.rs`. -/
structure Fuser where
  level : Int
  max_level : Int
  level_percent : Option Int
  deriving DecidableEq, Repr

/-- `Reservoir` from `src/printer/supply/reservoir.rs`. -/
structure Reservoir where
  level : Int
  max_level : Int
  level_percent : Option Int
  deriving DecidableEq, Repr

/-- `Toners`: the four optional CMYK toner cartridges. -/
structure Toners where
  black_toner : Option Toner
  cyan_toner : Option Toner
  magenta_toner : Option Toner
  yellow_toner : Option Toner
  deriving DecidableEq, Repr

/-- `Drums`: the four optional CMYK drum units. -/
structure Drums where
  black_drum : Option Drum
  cyan_drum : Option Drum
  magenta_drum : Option Drum
  yellow_drum : Option Drum
  deriving DecidableEq, Repr

/-- `Printer` from `src/printer/mod.rs`. -/
structure Printer where
  name : String
  serial_number : Option String
  toners : Toners
  drums : Drums
  fuser : Option Fuser
  reservoir : Option Reservoir
  deriving DecidableEq, Repr

/-! ## Supply Level Calculator (`src/printer/mod.rs`) -/

/-- Two's-complement wrap into the `i64` range, the release-mode semantics
of Rust `i64` multiplication `level * 100`. -/
def wrap64 (x : Int) : Int := (x + 2 ^ 63) % 2 ^ 64 - 2 ^ 63

/-- The `calculate_level_percent` closure shared by the four
`calc_and_update_*` methods of `Printer`: `None` when `max_level == 0`,
otherwise the truncating `i64` division `(level * 100) / max_level`
(`checked_div` + `expect`; the `expect` panic on `i64::MIN / -1` is outside
every claim and not modelled). -/
def calculate_level_percent (level max_level : Int) : Option Int :=
  if max_level = 0 then none
  else some (Int.tdiv (wrap64 (level * 100)) max_level)

/-- Update one optional reading the way each `if let Some(x) = &mut …`
block of `src/printer/mod.rs` does. -/
def updateToner (t : Toner) : Toner :=
  { t with level_percent := calculate_level_percent t.level t.max_level }

def updateDrum (d : Drum) : Drum :=
  { d with level_percent := calculate_level_percent d.level d.max_level }

def updateFuser (f : Fuser) : Fuser :=
  { f with level_percent := calculate_level_percent f.level f.max_level }

def updateReservoir (r : Reservoir) : Reservoir :=
  { r with level_percent := calculate_level_percent r.level r.max_level }

/-- `Printer::calc_and_update_toners_level_percent`. -/
def calc_and_update_toners_level_percent (p : Printer) : Printer :=
  { p with toners :=
    { black_toner := p.toners.black_toner.map updateToner
      cyan_toner := p.toners.cyan_toner.map updateToner
      magenta_toner := p.toners.magenta_toner.map updateToner
      yellow_toner := p.toners.yellow_toner.map updateToner } }

/-- `Printer::calc_and_update_drums_level_percent`. -/
def calc_and_update_drums_level_percent (p : Printer) : Printer :=
  { p with drums :=
    { black_drum := p.drums.black_drum.map updateDrum
      cyan_drum := p.drums.cyan_drum.map updateDrum
      magenta_drum := p.drums.magenta_drum.map updateDrum
      yellow_drum := p.drums.yellow_drum.map updateDrum } }

/-- `Printer::calc_and_update_fuser_level_percent`. -/
def calc_and_update_fuser_level_percent (p : Printer) : Printer :=
  { p with fuser := p.fuser.map updateFuser }

/-- `Printer::calc_and_update_reservoir_level_percent`. -/
def calc_and_update_reservoir_level_percent (p : Printer) : Printer :=
  { p with reservoir := p.reservoir.map updateReservoir }

/-- `Printer::calculate_all_levels`: the four passes in source order. -/
def calculate_all_levels (p : Printer) : Printer :=
  calc_and_update_reservoir_level_percent
    (calc_and_update_fuser_level_percent
      (calc_and_update_drums_level_percent
        (calc_and_update_toners_level_percent p)))

/-! ## C1 / C9: properties of the Supply Level Calculator -/

/-- What the calculator guarantees for one populated reading
(amended C1: the `None` case is `max_level == 0`, not `max_level <= 0`;
the quotient is stated overflow-free under explicit `i64` bounds). -/
def readingFinalized (level max_level : Int) (pct : Option Int) : Prop :=
  (max_level = 0 → pct = none) ∧
  (0 < max_level → -(2 ^ 63) ≤ level * 100 → level * 100 < 2 ^ 63 →
    pct = some (Int.tdiv (level * 100) max_level))

/-- Every populated reading of a printer satisfies `readingFinalized`. -/
def printerFinalized (q : Printer) : Prop :=
  (∀ t, q.toners.black_toner = some t → readingFinalized t.level t.max_level t.level_percent) ∧
  (∀ t, q.toners.cyan_toner = some t → readingFinalized t.level t.max_level t.level_percent) ∧
  (∀ t, q.toners.magenta_toner = some t → readingFinalized t.level t.max_level t.level_percent) ∧
  (∀ t, q.toners.yellow_toner = some t → readingFinalized t.level t.max_level t.level_percent) ∧
  (∀ d, q.drums.black_drum = some d → readingFinalized d.level d.max_level d.level_percent) ∧
  (∀ d, q.drums.cyan_drum = some d → readingFinalized d.level d.max_level d.level_percent) ∧
  (∀ d, q.drums.magenta_drum = some d → readingFinalized d.level d.max_level d.level_percent) ∧
  (∀ d, q.drums.yellow_drum = some d → readingFinalized d.level d.max_level d.level_percent) ∧
  (∀ f, q.fuser = some f → readingFinalized f.level f.max_level f.level_percent) ∧
  (∀ r, q.reservoir = some r → readingFinalized r.level r.max_level r.level_percent)

/-- Concrete printer holding a black toner with `max_level = -1`. -/
def printerNegMax : Printer :=
  ⟨"X", none, ⟨some ⟨1, -1, none⟩, none, none, none⟩,
    ⟨none, none, none, none⟩, none, none⟩

/-- A printer as the binary-blob scraper builds it: `level = 0`,
`max_level = 0`, and `level_percent` pre-populated. -/
def printerScraped : Printer :=
  ⟨"Brother X", none, ⟨some ⟨0, 0, some 87⟩, none, none, none⟩,
    ⟨none, none, none, none⟩, none, none⟩

/-! ## Strings: ASCII lowering, substring search, OID parsing
(`src/utils/mod.rs`, `str::contains`, `u64::from_str`) -/

/-- ASCII lowercase of one character (the device-name markers searched for
are plain ASCII). -/
def asciiToLower (c : Char) : Char :=
  if 'A' ≤ c ∧ c ≤ 'Z' then Char.ofNat (c.toNat + 32) else c

/-- `startsWithSeq needle hay`: `needle` is a prefix of `hay`. -/
def startsWithSeq : List Char → List Char → Bool
  | [], _ => true
  | _ :: _, [] => false
  | a :: as, b :: bs => a = b && startsWithSeq as bs

/-- `containsSeq hay needle`: Rust `str::contains` on character lists. -/
def containsSeq (hay needle : List Char) : Bool :=
  startsWithSeq needle hay ||
    match hay with
    | [] => false
    | _ :: t => containsSeq t needle

/-- `isAsciiDigit c`: `c` is one of `'0'..'9'`. -/
def isAsciiDigit (c : Char) : Bool := '0' ≤ c && c ≤ '9'

/-- Drop one leading `'+'`, as Rust's integer `from_str` does for
unsigned types. -/
def stripLeadingPlus (s : List Char) : List Char :=
  match s with
  | a :: rest => if a = '+' then rest else s
  | [] => s

/-- Digit-accumulation loop of `u64::from_str`: fails on any non-digit
and on overflow past `2^64 - 1`. -/
def parseU64go : List Char → Nat → Option Nat
  | [], acc => some acc
  | c :: rest, acc =>
    if isAsciiDigit c then
      if acc * 10 + (c.toNat - '0'.toNat) < 2 ^ 64 then
        parseU64go rest (acc * 10 + (c.toNat - '0'.toNat))
      else none
    else none

/-- Rust `u64::from_str`: optional leading `'+'`, then one or more ASCII
digits, value below `2^64`. -/
def parseU64 (s : List Char) : Option Nat :=
  if (stripLeadingPlus s).isEmpty then none
  else parseU64go (stripLeadingPlus s) 0

/-- Rust `str::split('.')` on character lists: always returns at least one
(possibly empty) segment, and adjacent dots yield empty segments. -/
def splitDot : List Char → List (List Char)
  | [] => [[]]
  | c :: rest =>
    if c = '.' then [] :: splitDot rest
    else
      match splitDot rest with
      | [] => [[c]]
      | seg :: segs => (c :: seg) :: segs

/-- `parse_oid_to_vec` from `src/utils/mod.rs`: the empty string parses to
the empty vector; otherwise each dot-separated segment must parse as `u64`,
else `ErrorKind::InvalidOidFormat`. -/
def parse_oid_to_vec (oid : List Char) : Except AppError (List Nat) :=
  if oid.isEmpty then .ok []
  else
    (splitDot oid).mapM fun segment =>
      match parseU64 segment with
      | some n => Except.ok n
      | none => Except.error AppError.invalidOidFormat

/-! ## Driver registry (`src/printer/driver.rs`, `src/driver/{brother,generic}.rs`) -/

/-- The two registered drivers, in registration order. -/
inductive PrinterDriverKind where
  | brother
  | generic
  deriving DecidableEq, Repr

/-- `BrotherDriver::is_compatible`: the lowercased device name contains
`"brother"`. -/
def brother_is_compatible (printer_name : List Char) : Bool :=
  containsSeq (printer_name.map asciiToLower) "brother".data

/-- `GenericDriver::is_compatible`: the catch-all driver accepts
everything. -/
def generic_is_compatible (_printer_name : List Char) : Bool := true

/-- Dispatch of `PrinterDriver::is_compatible` over the two drivers. -/
def is_compatible : PrinterDriverKind → List Char → Bool
  | .brother, n => brother_is_compatible n
  | .generic, n => generic_is_compatible n

/-- The registry built by `DriverManager::new`: Brother before the
generic fallback. -/
def driver_registry : List PrinterDriverKind := [.brother, .generic]

/-- `DriverManager::get_driver`: first compatible driver wins. -/
def get_driver (printer_name : List Char) : Option PrinterDriverKind :=
  driver_registry.find? fun d => is_compatible d printer_name

/-- Fuelled floor of `log2` (64 steps suffice for every value below
`2^64`). -/
def log2Aux : Nat → Nat → Nat
  | 0, _ => 0
  | fuel + 1, n => if n ≤ 1 then 0 else log2Aux fuel (n / 2) + 1

/-- `2^e ≤ n/d`, decided on integers. -/
def pow2LeRat (e : Int) (n d : Nat) : Bool :=
  if 0 ≤ e then 2 ^ e.toNat * d ≤ n else d ≤ n * 2 ^ (-e).toNat

/-- Floor of `log2 (n/d)` for a positive fraction: the candidate from the
integer logs of numerator and denominator, corrected by one where needed. -/
def ratLog2 (n d : Nat) : Int :=
  if pow2LeRat ((log2Aux 64 n : Int) - (log2Aux 64 d : Int)) n d
  then (log2Aux 64 n : Int) - (log2Aux 64 d : Int)
  else (log2Aux 64 n : Int) - (log2Aux 64 d : Int) - 1

/-- Round the fraction `n/d` to the nearest integer, ties to even. -/
def rneNat (n d : Nat) : Nat :=
  if 2 * (n % d) < d then n / d
  else if d < 2 * (n % d) then n / d + 1
  else if n / d % 2 = 0 then n / d else n / d + 1

/-- Round the positive fraction `n/d` to an `f32`: the result `(m, s)`
denotes the value `m * 2^s` with `2^23 ≤ m ≤ 2^24` (zero maps to zero). -/
def roundF32 (n d : Nat) : Nat × Int :=
  (if 0 ≤ 23 - ratLog2 n d then rneNat (n * 2 ^ (23 - ratLog2 n d).toNat) d
   else rneNat n (d * 2 ^ (ratLog2 n d - 23).toNat),
   ratLog2 n d - 23)

/-- Rust `(v as f32 / 100.0) as i64` for `v : u32`: round `v` to `f32`,
divide by the exact constant `100.0` rounding to `f32` again, then
truncate toward zero (the value is nonnegative, so truncation is the
floor of `m * 2^s`). -/
def f32ValueDiv100Trunc (v : Nat) : Int :=
  let p1 := roundF32 v 1
  let n2 := if 0 ≤ p1.2 then p1.1 * 2 ^ p1.2.toNat else p1.1
  let d2 := if 0 ≤ p1.2 then 100 else 100 * 2 ^ (-p1.2).toNat
  let p2 := roundF32 n2 d2
  if 0 ≤ p2.2 then ((p2.1 * 2 ^ p2.2.toNat : Nat) : Int)
  else ((p2.1 / 2 ^ (-p2.2).toNat : Nat) : Int)

/-- `u32::from_be_bytes` on four bytes. -/
def u32_from_be_bytes (a b c d : Nat) : Nat :=
  ((a * 256 + b) * 256 + c) * 256 + d

/-- `find_value_in_brother_bytes` from `src/driver/brother.rs`: scan for
the first window `[toner_code, 0x01, 0x04]`; on a match take the next four
bytes as a big-endian `u32` and convert with `(value as f32 / 100.0) as
i64`; return `None` if the window is absent or fewer than four bytes
follow the first match. -/
def find_value_in_brother_bytes : List Nat → Nat → Option Int
  | b0 :: b1 :: b2 :: rest, toner_code =>
    if b0 = toner_code ∧ b1 = 1 ∧ b2 = 4 then
      match rest with
      | a :: b :: c :: d :: _ =>
        some (f32ValueDiv100Trunc (u32_from_be_bytes a b c d))
      | _ => none
    else find_value_in_brother_bytes (b1 :: b2 :: rest) toner_code
  | _, _ => none

/-- Blob used by the C3 witness: the pattern for code `0x6F` starts at
index 1 and exactly four bytes (`0x000010CC` = 4300) follow. -/
def brotherProbeBytes : List Nat :=
  [0x99, 0x6F, 0x01, 0x04, 0x00, 0x00, 0x10, 0xCC]

/-- Outcome of one `timeout(ctx.timeout, session.get(&oid_obj))` attempt:
a network timeout, one of the two recoverable protocol failures
(`snmp2::Error::AuthUpdated`, `EngineBootsNotProvided`), a fatal library
error, or a reply carrying `error_status` and the first varbind. -/
inductive SnmpAttempt (V : Type) where
  | timeout
  | authUpdated
  | engineBootsNotProvided
  | fatal (msg : String)
  | reply (error_status : Int) (varbind : Option V)
  deriving DecidableEq

/-- The `for _ in 1..=ctx.retries` loop body of `get_snmp_value`.
`budget` counts remaining loop iterations, `used` the `session.get`
queries already issued; every `continue` (timeout, the two recoverable
failures — the second one re-runs `session.init`, whose result is
discarded) advances the same loop iterator. -/
def get_snmp_value_loop {V T : Type} (conv : V → Except AppError T)
    (attempt : Nat → SnmpAttempt V) : Nat → Nat → Except AppError T × Nat
  | 0, used =>
    (.error (.snmpRequest "Max retries exceeded or connection timed out"),
      used)
  | budget + 1, used =>
    match attempt used with
    | .timeout => get_snmp_value_loop conv attempt budget (used + 1)
    | .authUpdated => get_snmp_value_loop conv attempt budget (used + 1)
    | .engineBootsNotProvided =>
      get_snmp_value_loop conv attempt budget (used + 1)
    | .fatal msg => (.error (.snmpRequest msg), used + 1)
    | .reply error_status varbind =>
      if error_status ≠ 0 then
        (.error (.snmpRequest
          ("SNMP logical error: code " ++ toString error_status)), used + 1)
      else
        match varbind with
        | some v => (conv v, used + 1)
        | none => (.error .oidNotFound, used + 1)

/-- `get_snmp_value`: session construction and `Oid::from` conversion
precede the loop; their outcomes are inputs here (`session` is the
`create_snmp_session(ctx).await` result mapped to `Unit`, `oid_ok` tells
whether `Oid::from(oid)` succeeded, which the source maps to
`ErrorKind::OidConversion`). -/
def get_snmp_value {V T : Type} (session : Except AppError Unit)
    (oid_ok : Bool) (conv : V → Except AppError T)
    (attempt : Nat → SnmpAttempt V) (retries : Nat) :
    Except AppError T × Nat :=
  match session with
  | .error e => (.error e, 0)
  | .ok _ =>
    if oid_ok then get_snmp_value_loop conv attempt retries 0
    else (.error .oidConversion, 0)

/-- Oracle for C4: two time-synchronization updates, then a clean reply. -/
def authRetryAttempts : Nat → SnmpAttempt Int := fun i =>
  if i = 0 then .authUpdated
  else if i = 1 then .authUpdated
  else .reply 0 (some 42)

/-! ## Session Factory, V3 branch (spec §4.3) -/

/-- SNMPv3 security level (`src/snmp/security.rs`). -/
inductive SecurityLevel where
  | noAuthNoPriv
  | authNoPriv
  | authPriv
  deriving DecidableEq, Repr

/-- The V3 credential subset of `SnmpClientParams`
(`src/cli/args.rs` / `SnmpClientParams::from_args`). -/
structure V3Params where
  username : Option String
  auth_password : Option String
  privacy_password : Option String
  security_level : SecurityLevel
  deriving DecidableEq, Repr

/-- Security context bound into a V3 session. -/
inductive V3Auth where
  | noAuthNoPriv (user : String)
  | authNoPriv (user : String) (auth_key : String)
  | authPriv (user : String) (auth_key : String) (privacy_key : String)
  deriving DecidableEq, Repr

/-- A built V3 session: credentials plus the discovered engine
identifier. -/
structure V3Session where
  auth : V3Auth
  engine_id : List Nat
  deriving DecidableEq, Repr

/-- Modelled from the spec: final step of V3 session construction.
§4.3: "Before finalizing any V3 session, Engine Discovery must succeed;
its output identifier is bound into the session's security context";
§7 files discovery failure under protocol negotiation. -/
def finalizeV3 (auth : V3Auth) (discovery : Option (List Nat)) :
    Except AppError V3Session :=
  match discovery with
  | none => .error (.protocolNegotiation "engine discovery failed")
  | some engine_id => .ok ⟨auth, engine_id⟩

/-- Modelled from the spec: the V3 branch of `create_snmp_session`.
The current revision's `src/snmp/mod.rs` (the one whose
`SnmpClientParams` carries `username`/`auth_password`/…, used by
`src/snmp/value.rs` and `src/main.rs`) is not present under `src/`, so
this follows §4.3 word for word: validate that a username is present and
non-empty (configuration error otherwise); `NoAuthNoPriv` needs no
secrets; `AuthNoPriv` requires an authentication secret; `AuthPriv`
requires both an authentication and a privacy secret; then engine
discovery must succeed. -/
def create_snmp_session_v3 (params : V3Params)
    (discovery : Option (List Nat)) : Except AppError V3Session :=
  match params.username with
  | none => .error (.configuration "SNMPv3 requires a username")
  | some u =>
    if u = "" then .error (.configuration "SNMPv3 requires a username")
    else
      match params.security_level with
      | .noAuthNoPriv => finalizeV3 (.noAuthNoPriv u) discovery
      | .authNoPriv =>
        match params.auth_password with
        | none =>
          .error (.configuration "authNoPriv requires an authentication secret")
        | some a => finalizeV3 (.authNoPriv u a) discovery
      | .authPriv =>
        match params.auth_password, params.privacy_password with
        | none, _ =>
          .error (.configuration "authPriv requires an authentication secret")
        | some _, none =>
          .error (.configuration "authPriv requires a privacy secret")
        | some a, some pz => finalizeV3 (.authPriv u a pz) discovery

/-- The credential conditions the claim lists as configuration failures. -/
def v3MissingCredentials (params : V3Params) : Prop :=
  params.username = none ∨ params.username = some "" ∨
  (params.security_level = .authNoPriv ∧ params.auth_password = none) ∨
  (params.security_level = .authPriv ∧
    (params.auth_password = none ∨ params.privacy_password = none))

/-- V3 parameters with full, valid credentials. -/
def v3GoodParams : V3Params :=
  ⟨some "admin", some "authpass", some "privpass", .authPriv⟩

/-- V3 parameters with no username at all. -/
def v3NoUserParams : V3Params := ⟨none, none, none, .authPriv⟩

/-! ## MappingDocument and the generic driver (`src/driver/generic.rs`) -/

/-- The loosely-typed mapping document (`serde_json::Value` as used by the
driver: objects, strings, and anything else). -/
inductive Json where
  | str (s : String)
  | num (n : Int)
  | obj (fields : List (String × Json))
  | null

/-- First-match field lookup in a JSON object. -/
def lookupField : List (String × Json) → String → Option Json
  | [], _ => none
  | (k, v) :: rest, key => if k = key then some v else lookupField rest key

/-- `serde_json::Value::get` on a key: `Some` only for objects holding it. -/
def Json.getKey : Json → String → Option Json
  | .obj fields, key => lookupField fields key
  | _, _ => none

/-- `serde_json::Value::as_str`. -/
def Json.asStr : Json → Option String
  | .str s => some s
  | _ => none

/-- The supply slots the generic driver looks up
(`PrinterSupply`, plus `Info` as used by `src/driver/generic.rs`). -/
inductive PrinterSupply where
  | toner
  | drum
  | fuser
  | reservoir
  | info
  deriving DecidableEq, Repr

/-- `supply.to_string().to_lowercase()`. -/
def supplyKey : PrinterSupply → String
  | .toner => "toner"
  | .drum => "drum"
  | .fuser => "fuser"
  | .reservoir => "reservoir"
  | .info => "info"

/-- The CMYK color keys (`TonerColor`). -/
inductive TonerColor where
  | black
  | cyan
  | magenta
  | yellow
  deriving DecidableEq, Repr

/-- `color.to_string().to_lowercase()`. -/
def colorKey : TonerColor → String
  | .black => "black"
  | .cyan => "cyan"
  | .magenta => "magenta"
  | .yellow => "yellow"

/-- The `get_supply_oid` closure of `GenericDriver::get_supplies`: walk
supply → (color) → key, take the string, parse it; an absent entry (or a
non-string) is `AppError::OidNotFound`, a present string is parsed by
`parse_oid_to_vec` (whose own failure propagates). -/
def get_supply_oid (oids : Json) (supply : PrinterSupply)
    (color : Option TonerColor) (key : String) :
    Except AppError (List Nat) :=
  match (match color with
    | some c =>
      (((oids.getKey (supplyKey supply)).bind
        fun t => t.getKey (colorKey c)).bind
        fun b => b.getKey key).bind Json.asStr
    | none =>
      ((oids.getKey (supplyKey supply)).bind
        fun b => b.getKey key).bind Json.asStr) with
  | none => .error .oidNotFound
  | some s => parse_oid_to_vec s.data

/-- `GenericDriver::get_supplies`, from the loaded mapping document on:
collect the toner OIDs (serial-number OID first), conditionally the
drum/fuser/reservoir OIDs, then fetch values for every slot whose two
OIDs are non-empty, build the `Printer`, and run the four calculator
passes. Network fetches are the oracles `fetchInt`/`fetchStr` (the
`get_snmp_value::<i64>` and `::<String>` instantiations). -/
def generic_get_supplies (oids : Json) (extra_supplies : Bool)
    (fetchInt : List Nat → Except AppError Int)
    (fetchStr : List Nat → Except AppError String)
    (printer_name : String) : Except AppError Printer := do
  let serial_number_oid ← get_supply_oid oids PrinterSupply.info none "serial_number"
  let black_toner_level_oid ← get_supply_oid oids PrinterSupply.toner (some .black) "level"
  let black_toner_max_level_oid ←
    get_supply_oid oids PrinterSupply.toner (some .black) "max_level"
  let cyan_toner_level_oid ← get_supply_oid oids PrinterSupply.toner (some .cyan) "level"
  let cyan_toner_max_level_oid ←
    get_supply_oid oids PrinterSupply.toner (some .cyan) "max_level"
  let magenta_toner_level_oid ←
    get_supply_oid oids PrinterSupply.toner (some .magenta) "level"
  let magenta_toner_max_level_oid ←
    get_supply_oid oids PrinterSupply.toner (some .magenta) "max_level"
  let yellow_toner_level_oid ←
    get_supply_oid oids PrinterSupply.toner (some .yellow) "level"
  let yellow_toner_max_level_oid ←
    get_supply_oid oids PrinterSupply.toner (some .yellow) "max_level"
  -- The Rust `let mut …` vectors (empty by default) reassigned inside
  -- `if params.extra_supplies`, and `serial_number` (`Some(String::new())`
  -- by default), are threaded as one tuple-valued conditional.
  let state ←
    if extra_supplies then do
      let serial_number ←
        if !serial_number_oid.isEmpty then do
          let s ← fetchStr serial_number_oid
          pure (some s)
        else pure (none : Option String)
      let black_drum_level_oid ←
        get_supply_oid oids PrinterSupply.drum (some .black) "level"
      let black_drum_max_level_oid ←
        get_supply_oid oids PrinterSupply.drum (some .black) "max_level"
      let cyan_drum_level_oid ←
        get_supply_oid oids PrinterSupply.drum (some .cyan) "level"
      let cyan_drum_max_level_oid ←
        get_supply_oid oids PrinterSupply.drum (some .cyan) "max_level"
      let magenta_drum_level_oid ←
        get_supply_oid oids PrinterSupply.drum (some .magenta) "level"
      let magenta_drum_max_level_oid ←
        get_supply_oid oids PrinterSupply.drum (some .magenta) "max_level"
      let yellow_drum_level_oid ←
        get_supply_oid oids PrinterSupply.drum (some .yellow) "level"
      let yellow_drum_max_level_oid ←
        get_supply_oid oids PrinterSupply.drum (some .yellow) "max_level"
      let fuser_level_oid ← get_supply_oid oids PrinterSupply.fuser none "level"
      let fuser_max_level_oid ←
        get_supply_oid oids PrinterSupply.fuser none "max_level"
      let reservoir_level_oid ←
        get_supply_oid oids PrinterSupply.reservoir none "level"
      let reservoir_max_level_oid ←
        get_supply_oid oids PrinterSupply.reservoir none "max_level"
      pure (serial_number, black_drum_level_oid, black_drum_max_level_oid,
        cyan_drum_level_oid, cyan_drum_max_level_oid, magenta_drum_level_oid,
        magenta_drum_max_level_oid, yellow_drum_level_oid,
        yellow_drum_max_level_oid, fuser_level_oid, fuser_max_level_oid,
        reservoir_level_oid, reservoir_max_level_oid)
    else
      pure (some "", ([] : List Nat), ([] : List Nat), ([] : List Nat),
        ([] : List Nat), ([] : List Nat), ([] : List Nat), ([] : List Nat),
        ([] : List Nat), ([] : List Nat), ([] : List Nat), ([] : List Nat),
        ([] : List Nat))
  let (serial_number, black_drum_level_oid, black_drum_max_level_oid,
    cyan_drum_level_oid, cyan_drum_max_level_oid, magenta_drum_level_oid,
    magenta_drum_max_level_oid, yellow_drum_level_oid,
    yellow_drum_max_level_oid, fuser_level_oid, fuser_max_level_oid,
    reservoir_level_oid, reservoir_max_level_oid) := state
  let black_toner ←
    if !black_toner_level_oid.isEmpty && !black_toner_max_level_oid.isEmpty
    then do
      let level ← fetchInt black_toner_level_oid
      let max_level ← fetchInt black_toner_max_level_oid
      pure (some (Toner.mk level max_level none))
    else pure none
  let cyan_toner ←
    if !cyan_toner_level_oid.isEmpty && !cyan_toner_max_level_oid.isEmpty
    then do
      let level ← fetchInt cyan_toner_level_oid
      let max_level ← fetchInt cyan_toner_max_level_oid
      pure (some (Toner.mk level max_level none))
    else pure none
  let magenta_toner ←
    if !magenta_toner_level_oid.isEmpty && !magenta_toner_max_level_oid.isEmpty
    then do
      let level ← fetchInt magenta_toner_level_oid
      let max_level ← fetchInt magenta_toner_max_level_oid
      pure (some (Toner.mk level max_level none))
    else pure none
  let yellow_toner ←
    if !yellow_toner_level_oid.isEmpty && !yellow_toner_max_level_oid.isEmpty
    then do
      let level ← fetchInt yellow_toner_level_oid
      let max_level ← fetchInt yellow_toner_max_level_oid
      pure (some (Toner.mk level max_level none))
    else pure none
  let black_drum ←
    if !black_drum_level_oid.isEmpty && !black_drum_max_level_oid.isEmpty
    then do
      let level ← fetchInt black_drum_level_oid
      let max_level ← fetchInt black_drum_max_level_oid
      pure (some (Drum.mk level max_level none))
    else pure none
  let cyan_drum ←
    if !cyan_drum_level_oid.isEmpty && !cyan_drum_max_level_oid.isEmpty
    then do
      let level ← fetchInt cyan_drum_level_oid
      let max_level ← fetchInt cyan_drum_max_level_oid
      pure (some (Drum.mk level max_level none))
    else pure none
  let magenta_drum ←
    if !magenta_drum_level_oid.isEmpty && !magenta_drum_max_level_oid.isEmpty
    then do
      let level ← fetchInt magenta_drum_level_oid
      let max_level ← fetchInt magenta_drum_max_level_oid
      pure (some (Drum.mk level max_level none))
    else pure none
  let yellow_drum ←
    if !yellow_drum_level_oid.isEmpty && !yellow_drum_max_level_oid.isEmpty
    then do
      let level ← fetchInt yellow_drum_level_oid
      let max_level ← fetchInt yellow_drum_max_level_oid
      pure (some (Drum.mk level max_level none))
    else pure none
  let fuser ←
    if !fuser_level_oid.isEmpty && !fuser_max_level_oid.isEmpty then do
      let level ← fetchInt fuser_level_oid
      let max_level ← fetchInt fuser_max_level_oid
      pure (some (Fuser.mk level max_level none))
    else pure none
  let reservoir ←
    if !reservoir_level_oid.isEmpty && !reservoir_max_level_oid.isEmpty
    then do
      let level ← fetchInt reservoir_level_oid
      let max_level ← fetchInt reservoir_max_level_oid
      pure (some (Reservoir.mk level max_level none))
    else pure none
  let printer := Printer.mk printer_name serial_number
    ⟨black_toner, cyan_toner, magenta_toner, yellow_toner⟩
    ⟨black_drum, cyan_drum, magenta_drum, yellow_drum⟩ fuser reservoir
  pure (calc_and_update_reservoir_level_percent
    (calc_and_update_fuser_level_percent
      (calc_and_update_drums_level_percent
        (calc_and_update_toners_level_percent printer))))

def oidEntry (level max_level : String) : Json :=
  .obj [("level", .str level), ("max_level", .str max_level)]

def mappingEmptyCyan : Json := .obj [
  ("info", .obj [("serial_number", .str "1.2.0")]),
  ("toner", .obj [
    ("black", oidEntry "1.2.1" "1.2.2"),
    ("cyan", oidEntry "" ""),
    ("magenta", oidEntry "1.2.5" "1.2.6"),
    ("yellow", oidEntry "1.2.7" "1.2.8")])]

def mappingNoYellowLevel : Json := .obj [
  ("info", .obj [("serial_number", .str "1.2.0")]),
  ("toner", .obj [
    ("black", oidEntry "1.2.1" "1.2.2"),
    ("cyan", oidEntry "1.2.3" "1.2.4"),
    ("magenta", oidEntry "1.2.5" "1.2.6"),
    ("yellow", .obj [("max_level", .str "1.2.8")])])]

def mappingNoBlack : Json := .obj [
  ("info", .obj [("serial_number", .str "1.2.0")]),
  ("toner", .obj [])]

/-! ## Brother binary-blob driver (`src/driver/brother.rs`) -/

/-- Fixed serial-number OID of the Brother driver. -/
def brother_serial_number_oid : List Nat :=
  [1, 3, 6, 1, 2, 1, 43, 5, 1, 1, 17, 1]

/-- The maintenance-blob OID, selected by the legacy-model name match
(`printer_name.contains("HL-5350DN")`). -/
def br_info_maintenance_oid (printer_name : String) : List Nat :=
  if containsSeq printer_name.data "HL-5350DN".data then
    [1, 3, 6, 1, 4, 1, 2435, 2, 3, 9, 4, 2, 1, 5, 5, 11, 0]
  else
    [1, 3, 6, 1, 4, 1, 2435, 2, 3, 9, 4, 2, 1, 5, 5, 8, 0]

/-- `get_brother_supplies_levels`: fetch the serial number and the
maintenance blob, then scan the blob for every supply code — the four
toner codes, the four drum codes (`0x41`, `0x79`, `0x7a`, `0x7b`) and the
fuser code — unconditionally; readings found get `{0, 0, Some percent}`.
The `extra_supplies` feature flag is carried in the parameters but never
read by this driver. -/
def get_brother_supplies_levels (_extra_supplies : Bool)
    (fetchStr : List Nat → Except AppError String)
    (fetchBytes : List Nat → Except AppError (List Nat))
    (printer_name : String) : Except AppError Printer := do
  let serial_number ← fetchStr brother_serial_number_oid
  let bytes ← fetchBytes (br_info_maintenance_oid printer_name)
  let black_toner_percent := find_value_in_brother_bytes bytes 0x6F
  let cyan_toner_percent := find_value_in_brother_bytes bytes 0x70
  let magenta_toner_percent := find_value_in_brother_bytes bytes 0x71
  let yellow_toner_percent := find_value_in_brother_bytes bytes 0x72
  let black_drum_percent := find_value_in_brother_bytes bytes 0x41
  let cyan_drum_percent := find_value_in_brother_bytes bytes 0x79
  let magenta_drum_percent := find_value_in_brother_bytes bytes 0x7a
  let yellow_drum_percent := find_value_in_brother_bytes bytes 0x7b
  let fuser_percent := find_value_in_brother_bytes bytes 0x6a
  pure (Printer.mk printer_name (some serial_number)
    ⟨black_toner_percent.map fun percent => ⟨0, 0, some percent⟩,
      cyan_toner_percent.map fun percent => ⟨0, 0, some percent⟩,
      magenta_toner_percent.map fun percent => ⟨0, 0, some percent⟩,
      yellow_toner_percent.map fun percent => ⟨0, 0, some percent⟩⟩
    ⟨black_drum_percent.map fun percent => ⟨0, 0, some percent⟩,
      cyan_drum_percent.map fun percent => ⟨0, 0, some percent⟩,
      magenta_drum_percent.map fun percent => ⟨0, 0, some percent⟩,
      yellow_drum_percent.map fun percent => ⟨0, 0, some percent⟩⟩
    (fuser_percent.map fun percent => ⟨0, 0, some percent⟩)
    none)

/-- Blob holding only the black drum pattern (`0x41`), value
`0x2580 = 9600`, i.e. 96 percent. -/
def drumOnlyBlob : List Nat := [0x41, 0x01, 0x04, 0x00, 0x00, 0x25, 0x80]

/-! ## Theorems -/

theorem wrap64_eq_self {x : Int} (h1 : -(2 ^ 63) ≤ x) (h2 : x < 2 ^ 63) :
    wrap64 x = x := by
  unfold wrap64; omega

theorem calculate_level_percent_finalized (level max_level : Int) :
    readingFinalized level max_level (calculate_level_percent level max_level) := by
  constructor
  · intro h; simp [calculate_level_percent, h]
  · intro h hlo hhi
    have hne : max_level ≠ 0 := by omega
    simp [calculate_level_percent, hne, wrap64_eq_self hlo hhi]

theorem map_updateToner_finalized (o : Option Toner) :
    ∀ t, o.map updateToner = some t →
      readingFinalized t.level t.max_level t.level_percent := by
  intro t ht
  cases o with
  | none => simp at ht
  | some t0 =>
    simp only [Option.map_some'] at ht
    rw [← Option.some.injEq] at ht
    cases ht
    exact calculate_level_percent_finalized t0.level t0.max_level

theorem map_updateDrum_finalized (o : Option Drum) :
    ∀ d, o.map updateDrum = some d →
      readingFinalized d.level d.max_level d.level_percent := by
  intro d hd
  cases o with
  | none => simp at hd
  | some d0 =>
    simp only [Option.map_some'] at hd
    rw [← Option.some.injEq] at hd
    cases hd
    exact calculate_level_percent_finalized d0.level d0.max_level

theorem map_updateFuser_finalized (o : Option Fuser) :
    ∀ f, o.map updateFuser = some f →
      readingFinalized f.level f.max_level f.level_percent := by
  intro f hf
  cases o with
  | none => simp at hf
  | some f0 =>
    simp only [Option.map_some'] at hf
    rw [← Option.some.injEq] at hf
    cases hf
    exact calculate_level_percent_finalized f0.level f0.max_level

theorem map_updateReservoir_finalized (o : Option Reservoir) :
    ∀ r, o.map updateReservoir = some r →
      readingFinalized r.level r.max_level r.level_percent := by
  intro r hr
  cases o with
  | none => simp at hr
  | some r0 =>
    simp only [Option.map_some'] at hr
    rw [← Option.some.injEq] at hr
    cases hr
    exact calculate_level_percent_finalized r0.level r0.max_level

/-- C1 (amended): every supply reading finalized by the Supply Level
Calculator (toner, drum, fuser, reservoir) has `level_percent =
(level*100)/max_level` with truncation toward zero when `max_level > 0`
(and `level*100` within `i64`), and `level_percent = None` when
`max_level == 0` (not when `max_level <= 0`: a negative `max_level` also
takes the division branch); the spec examples `2800/3500 → 80`,
`1000/3000 → 33`, `300/3000 → 10` hold. -/
theorem C1_supply_level_calculator (p : Printer) :
    printerFinalized (calculate_all_levels p) ∧
    calculate_level_percent 2800 3500 = some 80 ∧
    calculate_level_percent 1000 3000 = some 33 ∧
    calculate_level_percent 300 3000 = some 10 := by
  refine ⟨⟨?_, ?_, ?_, ?_, ?_, ?_, ?_, ?_, ?_, ?_⟩, by decide, by decide, by decide⟩
  · exact map_updateToner_finalized p.toners.black_toner
  · exact map_updateToner_finalized p.toners.cyan_toner
  · exact map_updateToner_finalized p.toners.magenta_toner
  · exact map_updateToner_finalized p.toners.yellow_toner
  · exact map_updateDrum_finalized p.drums.black_drum
  · exact map_updateDrum_finalized p.drums.cyan_drum
  · exact map_updateDrum_finalized p.drums.magenta_drum
  · exact map_updateDrum_finalized p.drums.yellow_drum
  · exact map_updateFuser_finalized p.fuser
  · exact map_updateReservoir_finalized p.reservoir

/-- C1 counterexample: for the reading `{level: 1, max_level: -1}` the
finalized `level_percent` is `Some (-100)`, not `None`, although
`max_level <= 0`. -/
theorem C1_counterexample :
    ((-1 : Int) ≤ 0) ∧
    (calculate_all_levels printerNegMax).toners.black_toner =
      some ⟨1, -1, some (-100)⟩ := by
  exact ⟨by decide, by decide⟩

/-- C1 witness: instantiating the calculator guarantee at the spec's own
example reading `(2800, 3500)`. -/
theorem C1_witness :
    (calculate_all_levels
        ⟨"W", none, ⟨some ⟨2800, 3500, none⟩, none, none, none⟩,
          ⟨none, none, none, none⟩, none, none⟩).toners.black_toner =
      some ⟨2800, 3500, some 80⟩ ∧
    (⟨2800, 3500, some 80⟩ : Toner).level_percent =
      some (Int.tdiv (2800 * 100) 3500) := by
  refine ⟨by decide, ?_⟩
  exact ((C1_supply_level_calculator
      ⟨"W", none, ⟨some ⟨2800, 3500, none⟩, none, none, none⟩,
        ⟨none, none, none, none⟩, none, none⟩).1.1
    ⟨2800, 3500, some 80⟩ (by decide)).2 (by decide) (by decide) (by decide)

theorem map_updateToner_idem (o : Option Toner) :
    (o.map updateToner).map updateToner = o.map updateToner := by
  cases o <;> rfl

theorem map_updateDrum_idem (o : Option Drum) :
    (o.map updateDrum).map updateDrum = o.map updateDrum := by
  cases o <;> rfl

theorem map_updateFuser_idem (o : Option Fuser) :
    (o.map updateFuser).map updateFuser = o.map updateFuser := by
  cases o <;> rfl

theorem map_updateReservoir_idem (o : Option Reservoir) :
    (o.map updateReservoir).map updateReservoir = o.map updateReservoir := by
  cases o <;> rfl

/-- C9 (amended): every `calc_and_update_*` pass, and the combined
`calculate_all_levels`, is idempotent; but the calculator is NOT a no-op
on readings whose `level_percent` is already set — it recomputes the
percentage from `level`/`max_level`, so a binary-scraper reading
`{level: 0, max_level: 0, level_percent: Some 87}` is reset to
`level_percent = None`. -/
theorem C9_calculator_idempotent :
    (∀ p, calc_and_update_toners_level_percent
        (calc_and_update_toners_level_percent p) =
      calc_and_update_toners_level_percent p) ∧
    (∀ p, calc_and_update_drums_level_percent
        (calc_and_update_drums_level_percent p) =
      calc_and_update_drums_level_percent p) ∧
    (∀ p, calc_and_update_fuser_level_percent
        (calc_and_update_fuser_level_percent p) =
      calc_and_update_fuser_level_percent p) ∧
    (∀ p, calc_and_update_reservoir_level_percent
        (calc_and_update_reservoir_level_percent p) =
      calc_and_update_reservoir_level_percent p) ∧
    (∀ p, calculate_all_levels (calculate_all_levels p) =
      calculate_all_levels p) ∧
    (calc_and_update_toners_level_percent printerScraped).toners.black_toner =
      some ⟨0, 0, none⟩ := by
  refine ⟨?_, ?_, ?_, ?_, ?_, by decide⟩ <;>
    intro p <;>
    simp only [calculate_all_levels, calc_and_update_toners_level_percent,
      calc_and_update_drums_level_percent, calc_and_update_fuser_level_percent,
      calc_and_update_reservoir_level_percent, map_updateToner_idem,
      map_updateDrum_idem, map_updateFuser_idem, map_updateReservoir_idem]

/-- C9 counterexample: the calculator pass changes a printer whose only
reading is the binary-scraper reading `{0, 0, Some 87}`; that reading is
not left unchanged (its percent is cleared). -/
theorem C9_counterexample :
    calc_and_update_toners_level_percent printerScraped ≠ printerScraped ∧
    (calc_and_update_toners_level_percent printerScraped).toners.black_toner ≠
      some ⟨0, 0, some 87⟩ := by
  exact ⟨by decide, by decide⟩

/-- C6: driver selection returns the first registered driver whose
`is_compatible` accepts the name; any device name containing `"brother"`
case-insensitively selects the Brother driver even though the generic
driver is also compatible with it. -/
theorem C6_driver_selection (printer_name : List Char)
    (h : containsSeq (printer_name.map asciiToLower) "brother".data = true) :
    get_driver printer_name = some PrinterDriverKind.brother ∧
    generic_is_compatible printer_name = true := by
  refine ⟨?_, rfl⟩
  simp [get_driver, driver_registry, List.find?, is_compatible,
    brother_is_compatible, h]

/-- C6 witness: a concrete mixed-case Brother device name. -/
theorem C6_witness :
    containsSeq ("Brother HL-2270DW".data.map asciiToLower) "brother".data
        = true ∧
    get_driver "Brother HL-2270DW".data = some PrinterDriverKind.brother := by
  refine ⟨by decide, ?_⟩
  exact (C6_driver_selection "Brother HL-2270DW".data (by decide)).1

/-! ## C7: OID-string parsing -/

theorem parseU64go_eq_none {l : List Char} {c : Char} (hc : c ∈ l)
    (hd : isAsciiDigit c = false) : ∀ acc, parseU64go l acc = none := by
  induction l with
  | nil => cases hc
  | cons a t ih =>
    intro acc
    rcases List.mem_cons.mp hc with rfl | hmem
    · simp [parseU64go, hd]
    · by_cases ha : isAsciiDigit a = true
      · rw [parseU64go, if_pos ha]
        split
        · exact ih hmem _
        · rfl
      · rw [parseU64go, if_neg ha]

theorem mem_stripLeadingPlus {s : List Char} {c : Char} (hc : c ∈ s)
    (hp : c ≠ '+') : c ∈ stripLeadingPlus s := by
  cases s with
  | nil => cases hc
  | cons a t =>
    by_cases ha : a = '+'
    · subst ha
      rcases List.mem_cons.mp hc with rfl | hmem
      · exact absurd rfl hp
      · simpa [stripLeadingPlus] using hmem
    · simpa [stripLeadingPlus, ha] using hc

theorem parseU64_eq_none {s : List Char} {c : Char} (hc : c ∈ s)
    (hd : isAsciiDigit c = false) (hp : c ≠ '+') : parseU64 s = none := by
  have hmem : c ∈ stripLeadingPlus s := mem_stripLeadingPlus hc hp
  rw [parseU64]
  split
  · rfl
  · exact parseU64go_eq_none hmem hd 0

theorem mapM_oidSegment_error {l : List (List Char)} {seg : List Char}
    (hm : seg ∈ l) (hf : parseU64 seg = none) :
    (l.mapM fun segment =>
      match parseU64 segment with
      | some n => Except.ok n
      | none => Except.error AppError.invalidOidFormat) =
      (Except.error AppError.invalidOidFormat : Except AppError (List Nat)) := by
  induction l with
  | nil => cases hm
  | cons a t ih =>
    rw [List.mapM_cons]
    rcases List.mem_cons.mp hm with rfl | hmem
    · rw [hf]
      rfl
    · cases hpa : parseU64 a with
      | none => rfl
      | some n =>
        show (Except.ok n >>= fun b =>
          (t.mapM _) >>= fun bs => pure (b :: bs)) = _
        rw [ih hmem]
        rfl

/-- C7: `parse_oid_to_vec` maps `"1.3.6.1.2.1.25.3.2.1.3.1"` to
`[1,3,6,1,2,1,25,3,2,1,3,1]`, maps the empty string to the empty
sequence, fails with the invalid-format error on `"1.3.a.1"`, and fails
with the invalid-format error on every input one of whose dot-separated
segments contains a character that is neither an ASCII digit nor a
leading-sign `'+'`. -/
theorem C7_parse_oid_to_vec :
    parse_oid_to_vec "1.3.6.1.2.1.25.3.2.1.3.1".data =
      .ok [1, 3, 6, 1, 2, 1, 25, 3, 2, 1, 3, 1] ∧
    parse_oid_to_vec "".data = .ok [] ∧
    parse_oid_to_vec "1.3.a.1".data = .error .invalidOidFormat ∧
    ∀ oid : List Char, ∀ seg ∈ splitDot oid, ∀ c ∈ seg,
      isAsciiDigit c = false → c ≠ '+' →
      parse_oid_to_vec oid = .error .invalidOidFormat := by
  refine ⟨by decide, by decide, by decide, ?_⟩
  intro oid seg hseg c hc hd hp
  cases oid with
  | nil =>
    simp only [splitDot, List.mem_singleton] at hseg
    subst hseg
    cases hc
  | cons a t =>
    rw [parse_oid_to_vec, if_neg (by simp)]
    exact mapM_oidSegment_error hseg (parseU64_eq_none hc hd hp)

/-- C7 witness: the general invalid-segment clause applied to the
concrete input `"2.x.5"`. -/
theorem C7_witness :
    (['x'] ∈ splitDot "2.x.5".data) ∧ ('x' ∈ (['x'] : List Char)) ∧
    isAsciiDigit 'x' = false ∧ ('x' ≠ '+') ∧
    parse_oid_to_vec "2.x.5".data = .error .invalidOidFormat := by
  refine ⟨by decide, by decide, by decide, by decide, ?_⟩
  exact C7_parse_oid_to_vec.2.2.2 "2.x.5".data ['x'] (by decide) 'x'
    (by decide) (by decide) (by decide)

/-! ## C3: characterization of the blob scan -/

theorem find_value_none_of_no_pattern (bytes : List Nat) :
    ∀ code : Nat, (∀ i, (bytes.drop i).take 3 ≠ [code, 1, 4]) →
      find_value_in_brother_bytes bytes code = none := by
  induction bytes with
  | nil => intro code _; rfl
  | cons b0 tl ih =>
    intro code h
    match tl with
    | [] => rfl
    | [b1] => rfl
    | b1 :: b2 :: rest =>
      have hne : ¬(b0 = code ∧ b1 = 1 ∧ b2 = 4) := by
        intro ⟨h1, h2, h3⟩
        exact h 0 (by simp [h1, h2, h3])
      show (if b0 = code ∧ b1 = 1 ∧ b2 = 4 then _ else
        find_value_in_brother_bytes (b1 :: b2 :: rest) code) = none
      rw [if_neg hne]
      exact ih code fun i => h (i + 1)

theorem find_value_some_of_pattern :
    ∀ (i : Nat) (bytes : List Nat) (code : Nat),
      (bytes.drop i).take 3 = [code, 1, 4] →
      (∀ j, j < i → (bytes.drop j).take 3 ≠ [code, 1, 4]) →
      i + 7 ≤ bytes.length →
      find_value_in_brother_bytes bytes code =
        some (f32ValueDiv100Trunc (u32_from_be_bytes
          (bytes.getD (i + 3) 0) (bytes.getD (i + 4) 0)
          (bytes.getD (i + 5) 0) (bytes.getD (i + 6) 0))) := by
  intro i
  induction i with
  | zero =>
    intro bytes code hpat _ hlen
    obtain ⟨b0, b1, b2, a, b, c, d, rest, rfl⟩ :
        ∃ b0 b1 b2 a b c d rest,
          bytes = b0 :: b1 :: b2 :: a :: b :: c :: d :: rest := by
      rcases bytes with _ | ⟨b0, _ | ⟨b1, _ | ⟨b2, _ | ⟨a, _ | ⟨b, _ | ⟨c, _ | ⟨d, rest⟩⟩⟩⟩⟩⟩⟩ <;>
        first
          | exact ⟨_, _, _, _, _, _, _, _, rfl⟩
          | simp at hlen
    simp only [List.drop, List.take, List.cons.injEq, and_true] at hpat
    obtain ⟨h0, h1, h2⟩ := hpat
    show (if b0 = code ∧ b1 = 1 ∧ b2 = 4 then _ else _) = _
    rw [if_pos ⟨h0, h1, h2⟩]
    rfl
  | succ i ih =>
    intro bytes code hpat hmin hlen
    obtain ⟨b0, b1, b2, tl, rfl⟩ : ∃ x y z t, bytes = x :: y :: z :: t := by
      rcases bytes with _ | ⟨x, _ | ⟨y, _ | ⟨z, t⟩⟩⟩ <;>
        first
          | exact ⟨_, _, _, _, rfl⟩
          | (exfalso; simp only [List.length_cons, List.length_nil] at hlen; omega)
    have hne : ¬(b0 = code ∧ b1 = 1 ∧ b2 = 4) := by
      intro ⟨h1, h2, h3⟩
      exact hmin 0 (Nat.succ_pos i) (by simp [h1, h2, h3])
    show (if b0 = code ∧ b1 = 1 ∧ b2 = 4 then _ else
      find_value_in_brother_bytes (b1 :: b2 :: tl) code) = _
    rw [if_neg hne]
    exact ih (b1 :: b2 :: tl) code hpat
      (fun j hj => hmin (j + 1) (Nat.succ_lt_succ hj))
      (by simp only [List.length_cons] at hlen ⊢; omega)

theorem find_value_none_of_short_tail :
    ∀ (i : Nat) (bytes : List Nat) (code : Nat),
      (bytes.drop i).take 3 = [code, 1, 4] →
      (∀ j, j < i → (bytes.drop j).take 3 ≠ [code, 1, 4]) →
      bytes.length < i + 7 →
      find_value_in_brother_bytes bytes code = none := by
  intro i
  induction i with
  | zero =>
    intro bytes code hpat _ hlen
    obtain ⟨b0, b1, b2, rest, rfl⟩ : ∃ x y z t, bytes = x :: y :: z :: t := by
      rcases bytes with _ | ⟨x, _ | ⟨y, _ | ⟨z, t⟩⟩⟩ <;>
        first
          | exact ⟨_, _, _, _, rfl⟩
          | simp at hpat
    simp only [List.drop, List.take, List.cons.injEq, and_true] at hpat
    obtain ⟨h0, h1, h2⟩ := hpat
    show (if b0 = code ∧ b1 = 1 ∧ b2 = 4 then _ else _) = _
    rw [if_pos ⟨h0, h1, h2⟩]
    rcases rest with _ | ⟨a, _ | ⟨b, _ | ⟨c, _ | ⟨d, rest'⟩⟩⟩⟩
    · rfl
    · rfl
    · rfl
    · rfl
    · exfalso; simp at hlen; omega
  | succ i ih =>
    intro bytes code hpat hmin hlen
    match bytes with
    | [] => rfl
    | [x] => rfl
    | [x, y] => rfl
    | b0 :: b1 :: b2 :: tl =>
      have hne : ¬(b0 = code ∧ b1 = 1 ∧ b2 = 4) := by
        intro ⟨h1, h2, h3⟩
        exact hmin 0 (Nat.succ_pos i) (by simp [h1, h2, h3])
      show (if b0 = code ∧ b1 = 1 ∧ b2 = 4 then _ else
        find_value_in_brother_bytes (b1 :: b2 :: tl) code) = _
      rw [if_neg hne]
      exact ih (b1 :: b2 :: tl) code hpat
        (fun j hj => hmin (j + 1) (Nat.succ_lt_succ hj))
        (by simp only [List.length_cons] at hlen ⊢; omega)

/-- C3 (amended): the scan of a blob for a one-byte code returns the
conversion `(v as f32 / 100.0) as i64` — not exactly `floor(v/100)`, see
the counterexample — of the big-endian `u32` `v` formed from the 4 bytes
immediately following the first occurrence of `[code, 0x01, 0x04]`,
provided at least 4 bytes follow; it returns `None` when the sequence is
absent or fewer than 4 bytes follow its first occurrence; the spec
examples hold: the empty blob yields `None` for every code, and scanning
`[0x6F, 0x01, 0x04, 0x00, 0x00, 0x21, 0xFC]` for code `0x6F` yields
`Some 87` (`0x21FC = 8700`, and on such small values the `f32` conversion
agrees with `floor(v/100)`). -/
theorem C3_brother_blob_scan :
    (∀ code, find_value_in_brother_bytes [] code = none) ∧
    find_value_in_brother_bytes [0x6F, 0x01, 0x04, 0x00, 0x00, 0x21, 0xFC]
      0x6F = some 87 ∧
    (∀ (bytes : List Nat) (code : Nat),
      (∀ i, (bytes.drop i).take 3 ≠ [code, 1, 4]) →
      find_value_in_brother_bytes bytes code = none) ∧
    (∀ (i : Nat) (bytes : List Nat) (code : Nat),
      (bytes.drop i).take 3 = [code, 1, 4] →
      (∀ j, j < i → (bytes.drop j).take 3 ≠ [code, 1, 4]) →
      i + 7 ≤ bytes.length →
      find_value_in_brother_bytes bytes code =
        some (f32ValueDiv100Trunc (u32_from_be_bytes
          (bytes.getD (i + 3) 0) (bytes.getD (i + 4) 0)
          (bytes.getD (i + 5) 0) (bytes.getD (i + 6) 0)))) ∧
    (∀ (i : Nat) (bytes : List Nat) (code : Nat),
      (bytes.drop i).take 3 = [code, 1, 4] →
      (∀ j, j < i → (bytes.drop j).take 3 ≠ [code, 1, 4]) →
      bytes.length < i + 7 →
      find_value_in_brother_bytes bytes code = none) := by
  exact ⟨fun _ => rfl, by decide, find_value_none_of_no_pattern,
    find_value_some_of_pattern, find_value_none_of_short_tail⟩

/-- C3 counterexample: for the blob holding the big-endian value
`0x800010FF = 2147487999` after the marker, the code returns
`Some 21474880` (the `f32` rounding carries `2147487999` up to
`2147488000`), while `floor(2147487999 / 100) = 21474879`. -/
theorem C3_counterexample :
    u32_from_be_bytes 0x80 0x00 0x10 0xFF = 2147487999 ∧
    find_value_in_brother_bytes [0x6F, 0x01, 0x04, 0x80, 0x00, 0x10, 0xFF]
      0x6F = some 21474880 ∧
    (21474880 : Int) ≠ (((2147487999 : Nat) / 100 : Nat) : Int) := by
  exact ⟨by decide, by decide, by decide⟩

/-- C3 witness: the first-occurrence clause applied at index 1 of a
concrete blob. -/
theorem C3_witness :
    ((brotherProbeBytes.drop 1).take 3 = [0x6F, 1, 4]) ∧
    (∀ j, j < 1 → (brotherProbeBytes.drop j).take 3 ≠ [0x6F, 1, 4]) ∧
    1 + 7 ≤ brotherProbeBytes.length ∧
    find_value_in_brother_bytes brotherProbeBytes 0x6F = some 43 := by
  refine ⟨by decide, by decide, by decide, ?_⟩
  exact (C3_brother_blob_scan.2.2.2.1 1 brotherProbeBytes 0x6F
    (by decide) (by decide) (by decide)).trans (by decide)

theorem loop_step_authUpdated {V T : Type} (conv : V → Except AppError T)
    (attempt : Nat → SnmpAttempt V) (budget used : Nat)
    (h : attempt used = SnmpAttempt.authUpdated) :
    get_snmp_value_loop conv attempt (budget + 1) used =
      get_snmp_value_loop conv attempt budget (used + 1) := by
  rw [get_snmp_value_loop, h]

theorem loop_step_reply_ok {V T : Type} (conv : V → Except AppError T)
    (attempt : Nat → SnmpAttempt V) (budget used : Nat) (v : V)
    (h : attempt used = SnmpAttempt.reply 0 (some v)) :
    get_snmp_value_loop conv attempt (budget + 1) used = (conv v, used + 1) := by
  rw [get_snmp_value_loop, h]
  simp

/-- C4 (amended): both recoverable protocol failures retry via `continue`
of the `for _ in 1..=retries` loop, so they DO consume the timeout-retry
budget: a single `AuthUpdated` exhausts a budget of 1, and a run of two
time-synchronization updates followed by a successful reply returns the
value only once `retries >= 3` (consuming exactly 3 attempts). -/
theorem C4_recoverable_retry_budget :
    (∀ (V T : Type) (conv : V → Except AppError T)
      (attempt : Nat → SnmpAttempt V),
      attempt 0 = SnmpAttempt.authUpdated →
      get_snmp_value_loop conv attempt 1 0 =
        (.error (.snmpRequest "Max retries exceeded or connection timed out"),
          1)) ∧
    (∀ (V T : Type) (conv : V → Except AppError T)
      (attempt : Nat → SnmpAttempt V) (v : V) (retries : Nat),
      3 ≤ retries →
      attempt 0 = SnmpAttempt.authUpdated →
      attempt 1 = SnmpAttempt.authUpdated →
      attempt 2 = SnmpAttempt.reply 0 (some v) →
      get_snmp_value_loop conv attempt retries 0 = (conv v, 3)) := by
  constructor
  · intro V T conv attempt h0
    rw [loop_step_authUpdated conv attempt 0 0 h0]
    rfl
  · intro V T conv attempt v retries hret h0 h1 h2
    obtain ⟨k, rfl⟩ := Nat.exists_eq_add_of_le hret
    rw [show 3 + k = (k + 1 + 1) + 1 by omega]
    rw [loop_step_authUpdated conv attempt (k + 1 + 1) 0 h0]
    rw [loop_step_authUpdated conv attempt (k + 1) 1 h1]
    rw [loop_step_reply_ok conv attempt k 2 v h2]

/-- C4 counterexample: with `retries = 2` (≥ 1) the run
[AuthUpdated, AuthUpdated, success] does NOT return the value — the two
recoverable retries exhaust the budget and the call fails with the
request error. -/
theorem C4_counterexample :
    (1 : Nat) ≤ 2 ∧
    authRetryAttempts 0 = SnmpAttempt.authUpdated ∧
    authRetryAttempts 1 = SnmpAttempt.authUpdated ∧
    authRetryAttempts 2 = SnmpAttempt.reply 0 (some 42) ∧
    get_snmp_value_loop Except.ok authRetryAttempts 2 0 =
      (.error (.snmpRequest "Max retries exceeded or connection timed out"),
        2) ∧
    (get_snmp_value_loop Except.ok authRetryAttempts 2 0).1 ≠ .ok 42 := by
  exact ⟨by decide, rfl, rfl, rfl, rfl, by decide⟩

/-- C4 witness: with `retries = 3` the same run returns the value after
exactly 3 queries. -/
theorem C4_witness :
    (3 : Nat) ≤ 3 ∧
    get_snmp_value_loop Except.ok authRetryAttempts 3 0 =
      (Except.ok (42 : Int), 3) := by
  refine ⟨Nat.le_refl 3, ?_⟩
  exact C4_recoverable_retry_budget.2 Int Int Except.ok authRetryAttempts 42 3
    (Nat.le_refl 3) rfl rfl rfl

/-- C5 (amended, spec-modelled): V3 session construction fails with a
configuration error exactly when the username is absent or empty, or (at
AuthNoPriv) the authentication secret is absent, or (at AuthPriv) either
secret is absent; with a non-empty username and the secrets required by
the security level present, a V3 session is built PROVIDED the engine
discovery handshake succeeds (its failure is a protocol error, not a
configuration error and not success). -/
theorem C5_v3_session_validation (params : V3Params)
    (discovery : Option (List Nat)) :
    ((∃ msg, create_snmp_session_v3 params discovery =
        .error (.configuration msg)) ↔ v3MissingCredentials params) ∧
    (¬ v3MissingCredentials params → ∀ engine_id : List Nat,
      ∃ s, create_snmp_session_v3 params (some engine_id) = .ok s) := by
  obtain ⟨u, a, pz, lvl⟩ := params
  constructor
  · rcases u with _ | u
    · simp [create_snmp_session_v3, v3MissingCredentials]
    · by_cases hs : u = ""
      · subst hs
        simp [create_snmp_session_v3, v3MissingCredentials]
      · cases lvl <;> rcases a with _ | a <;> rcases pz with _ | pz <;>
          rcases discovery with _ | d <;>
          simp [create_snmp_session_v3, v3MissingCredentials, finalizeV3, hs]
  · intro hmiss engine_id
    rcases u with _ | u
    · exact absurd (Or.inl rfl) hmiss
    · by_cases hs : u = ""
      · exact absurd (Or.inr (Or.inl (by rw [hs]))) hmiss
      · cases lvl with
        | noAuthNoPriv =>
          exact ⟨⟨.noAuthNoPriv u, engine_id⟩,
            by simp [create_snmp_session_v3, finalizeV3, hs]⟩
        | authNoPriv =>
          rcases a with _ | a
          · exact absurd (Or.inr (Or.inr (Or.inl ⟨rfl, rfl⟩))) hmiss
          · exact ⟨⟨.authNoPriv u a, engine_id⟩,
              by simp [create_snmp_session_v3, finalizeV3, hs]⟩
        | authPriv =>
          rcases a with _ | a
          · exact absurd (Or.inr (Or.inr (Or.inr ⟨rfl, Or.inl rfl⟩))) hmiss
          · rcases pz with _ | pz
            · exact absurd (Or.inr (Or.inr (Or.inr ⟨rfl, Or.inr rfl⟩))) hmiss
            · exact ⟨⟨.authPriv u a pz, engine_id⟩,
                by simp [create_snmp_session_v3, finalizeV3, hs]⟩

/-- C5 counterexample: with a non-empty username and both secrets present
the claim promises a successfully built session, but when engine
discovery fails no session is built — construction returns a protocol
error. -/
theorem C5_counterexample :
    ¬ v3MissingCredentials v3GoodParams ∧
    create_snmp_session_v3 v3GoodParams none =
      .error (.protocolNegotiation "engine discovery failed") ∧
    ∀ s : V3Session, create_snmp_session_v3 v3GoodParams none ≠ .ok s := by
  refine ⟨by unfold v3MissingCredentials; decide, rfl, ?_⟩
  intro s h
  rw [show create_snmp_session_v3 v3GoodParams none =
    .error (.protocolNegotiation "engine discovery failed") from rfl] at h
  exact absurd h (by simp)

/-- C5 witness: valid AuthPriv credentials plus a successful discovery
build a session. -/
theorem C5_witness :
    ¬ v3MissingCredentials v3GoodParams ∧
    ∃ s, create_snmp_session_v3 v3GoodParams (some [128, 0, 0, 7]) = .ok s := by
  refine ⟨by unfold v3MissingCredentials; decide, ?_⟩
  exact (C5_v3_session_validation v3GoodParams (some [128, 0, 0, 7])).2
    (by unfold v3MissingCredentials; decide) [128, 0, 0, 7]

/-- C10 (amended): provided session construction and OID conversion
succeed, a retry count of 0 makes the attempt loop body never execute:
no query is issued (the query count is 0, independent of the network
oracle) and the call returns the request error "Max retries exceeded or
connection timed out". -/
theorem C10_zero_retries :
    ∀ (V T : Type) (conv : V → Except AppError T)
      (attempt : Nat → SnmpAttempt V),
      get_snmp_value (Except.ok ()) true conv attempt 0 =
        (.error (.snmpRequest "Max retries exceeded or connection timed out"),
          0) :=
  fun _ _ _ _ => rfl

/-- C10 counterexample: the claim quantifies over every
connection-parameter set, but when session construction itself fails
(V3 with no username) `get_snmp_value` still issues no query yet returns
the configuration error, not the request error the claim names. -/
theorem C10_counterexample :
    get_snmp_value
        (Except.map (fun _ => ())
          (create_snmp_session_v3 v3NoUserParams (some [128, 0, 0, 7])))
        true Except.ok
        ((fun _ => SnmpAttempt.timeout) : Nat → SnmpAttempt Int) 0 =
      ((.error (.configuration "SNMPv3 requires a username") :
        Except AppError Int), 0) ∧
    AppError.configuration "SNMPv3 requires a username" ≠
      .snmpRequest "Max retries exceeded or connection timed out" := by
  exact ⟨rfl, by decide⟩

/-- C2 (amended): in the generic mapping-driven driver a present but
EMPTY OID string makes the slot be skipped (its reading is `None`, no
error), but an ABSENT level/max_level (or serial-number) OID key makes
`get_supply_oid` return `AppError::OidNotFound`, which the `?` operator
propagates: the poll fails. Concretely: with the cyan toner OIDs present
but empty the poll succeeds with `cyan_toner = None`; and whenever the
serial-number lookup succeeds but the black-toner level key is absent,
the poll fails with `OidNotFound`. -/
theorem C2_generic_slot_skip :
    (generic_get_supplies mappingEmptyCyan false (fun _ => .ok 50)
        (fun _ => .ok "SN") "X" =
      .ok ⟨"X", some "", ⟨some ⟨50, 50, some 100⟩, none,
        some ⟨50, 50, some 100⟩, some ⟨50, 50, some 100⟩⟩,
        ⟨none, none, none, none⟩, none, none⟩) ∧
    (∀ (oids : Json) (extra_supplies : Bool)
      (fetchInt : List Nat → Except AppError Int)
      (fetchStr : List Nat → Except AppError String)
      (printer_name : String) (soid : List Nat),
      get_supply_oid oids PrinterSupply.info none "serial_number" =
        .ok soid →
      get_supply_oid oids PrinterSupply.toner (some .black) "level" =
        .error .oidNotFound →
      generic_get_supplies oids extra_supplies fetchInt fetchStr
        printer_name = .error .oidNotFound) := by
  constructor
  · decide
  · intro oids extra_supplies fetchInt fetchStr printer_name soid h1 h2
    unfold generic_get_supplies
    rw [h1, h2]
    rfl

/-- C2 counterexample: a mapping whose yellow-toner entry lacks the
`"level"` key — the claim promises the slot is skipped and the poll
cannot fail, but the poll fails with `OidNotFound`. -/
theorem C2_counterexample :
    (Json.getKey ((mappingNoYellowLevel.getKey "toner").getD .null)
        "yellow").isSome = true ∧
    (((((mappingNoYellowLevel.getKey "toner").getD .null).getKey
        "yellow").getD .null).getKey "level").isNone = true ∧
    generic_get_supplies mappingNoYellowLevel false (fun _ => .ok 7)
      (fun _ => .ok "SN") "Printer X" = .error .oidNotFound := by
  exact ⟨by decide, by decide, by decide⟩

/-- C2 witness: the absent-key clause applied to a mapping with an empty
toner object. -/
theorem C2_witness :
    get_supply_oid mappingNoBlack PrinterSupply.info none "serial_number" =
      .ok [1, 2, 0] ∧
    get_supply_oid mappingNoBlack PrinterSupply.toner (some .black) "level" =
      .error .oidNotFound ∧
    generic_get_supplies mappingNoBlack true (fun _ => .ok 1)
      (fun _ => .ok "s") "W" = .error .oidNotFound := by
  refine ⟨by decide, by decide, ?_⟩
  exact C2_generic_slot_skip.2 mappingNoBlack true (fun _ => .ok 1)
    (fun _ => .ok "s") "W" [1, 2, 0] (by decide) (by decide)

/-- C8 (amended): the Brother driver scans the four drum codes
unconditionally — its result does not depend on the extra-supplies flag
at all, and each drum reading equals the scan result for its code mapped
to `{0, 0, Some percent}` (so it is `Some` whenever the code is found,
also with the flag disabled). -/
theorem C8_brother_drums_unconditional :
    (∀ (e1 e2 : Bool) (fetchStr : List Nat → Except AppError String)
      (fetchBytes : List Nat → Except AppError (List Nat)) (name : String),
      get_brother_supplies_levels e1 fetchStr fetchBytes name =
        get_brother_supplies_levels e2 fetchStr fetchBytes name) ∧
    (∀ (e : Bool) (fetchStr : List Nat → Except AppError String)
      (fetchBytes : List Nat → Except AppError (List Nat)) (name : String)
      (serial : String) (bytes : List Nat),
      fetchStr brother_serial_number_oid = .ok serial →
      fetchBytes (br_info_maintenance_oid name) = .ok bytes →
      ∃ p, get_brother_supplies_levels e fetchStr fetchBytes name = .ok p ∧
        p.drums.black_drum = (find_value_in_brother_bytes bytes 0x41).map
          (fun percent => ⟨0, 0, some percent⟩) ∧
        p.drums.cyan_drum = (find_value_in_brother_bytes bytes 0x79).map
          (fun percent => ⟨0, 0, some percent⟩) ∧
        p.drums.magenta_drum = (find_value_in_brother_bytes bytes 0x7a).map
          (fun percent => ⟨0, 0, some percent⟩) ∧
        p.drums.yellow_drum = (find_value_in_brother_bytes bytes 0x7b).map
          (fun percent => ⟨0, 0, some percent⟩)) := by
  constructor
  · intro e1 e2 fetchStr fetchBytes name
    rfl
  · intro e fetchStr fetchBytes name serial bytes h1 h2
    refine ⟨Printer.mk name (some serial)
      ⟨(find_value_in_brother_bytes bytes 0x6F).map
          fun percent => ⟨0, 0, some percent⟩,
        (find_value_in_brother_bytes bytes 0x70).map
          fun percent => ⟨0, 0, some percent⟩,
        (find_value_in_brother_bytes bytes 0x71).map
          fun percent => ⟨0, 0, some percent⟩,
        (find_value_in_brother_bytes bytes 0x72).map
          fun percent => ⟨0, 0, some percent⟩⟩
      ⟨(find_value_in_brother_bytes bytes 0x41).map
          fun percent => ⟨0, 0, some percent⟩,
        (find_value_in_brother_bytes bytes 0x79).map
          fun percent => ⟨0, 0, some percent⟩,
        (find_value_in_brother_bytes bytes 0x7a).map
          fun percent => ⟨0, 0, some percent⟩,
        (find_value_in_brother_bytes bytes 0x7b).map
          fun percent => ⟨0, 0, some percent⟩⟩
      ((find_value_in_brother_bytes bytes 0x6a).map
        fun percent => ⟨0, 0, some percent⟩)
      none, ?_, rfl, rfl, rfl, rfl⟩
    unfold get_brother_supplies_levels
    rw [h1, h2]
    rfl

/-- C8 counterexample: with the extra-supplies flag disabled and a blob
containing the black drum code, the returned state has a populated black
drum reading — not `None`. -/
theorem C8_counterexample :
    get_brother_supplies_levels false (fun _ => .ok "SER1")
        (fun _ => .ok drumOnlyBlob) "Brother MFC-L3770CDW" =
      .ok ⟨"Brother MFC-L3770CDW", some "SER1", ⟨none, none, none, none⟩,
        ⟨some ⟨0, 0, some 96⟩, none, none, none⟩, none, none⟩ ∧
    (some (⟨0, 0, some 96⟩ : Drum) ≠ (none : Option Drum)) := by
  exact ⟨by decide, by decide⟩

/-- C8 witness: the drum-characterization clause applied with the flag
disabled and an empty blob. -/
theorem C8_witness :
    ∃ p, get_brother_supplies_levels false (fun _ => .ok "S0")
        (fun _ => .ok []) "Brother HL-2270DW" = .ok p ∧
      p.drums.black_drum = (find_value_in_brother_bytes [] 0x41).map
        (fun percent => ⟨0, 0, some percent⟩) ∧
      p.drums.cyan_drum = (find_value_in_brother_bytes [] 0x79).map
        (fun percent => ⟨0, 0, some percent⟩) ∧
      p.drums.magenta_drum = (find_value_in_brother_bytes [] 0x7a).map
        (fun percent => ⟨0, 0, some percent⟩) ∧
      p.drums.yellow_drum = (find_value_in_brother_bytes [] 0x7b).map
        (fun percent => ⟨0, 0, some percent⟩) := by
  exact C8_brother_drums_unconditional.2 false (fun _ => .ok "S0")
    (fun _ => .ok []) "Brother HL-2270DW" "S0" [] rfl rfl

